import Mathlib

/-!
Shallow embedding of the APDS9300 ambient-light-sensor driver core
(drivers/staging/iio/light/apds9300.c): the lux computation
`als_calculate_lux`, the power/threshold/interrupt session operations, and
the cached getters.  Machine arithmetic follows the driver's target
platform (32-bit ARM): `int` and `unsigned long` are 32 bits, `u64` is
64 bits; two's-complement wraparound is made explicit with `% 2 ^ 32`.

Bus I/O (`i2c_smbus_*`) is modelled by passing in the value the bus call
would return and counting the transactions an operation issues, so that
"no bus I/O" is expressible as a transaction count of zero.
-/

namespace Apds9300

/-- Calculated values 1000 * (CH1/CH0)^1.4 for CH1/CH0 from 0 to 0.52
(the `lux_ratio` array of apds9300.c, transcribed verbatim). -/
def lux_ratio : List Nat :=
  [0, 2, 4, 7, 11, 15, 19, 24, 29, 34, 40, 45, 51, 57, 64, 70, 77, 84, 91,
   98, 105, 112, 120, 128, 136, 144, 152, 160, 168, 177, 185, 194, 203,
   212, 221, 230, 239, 249, 258, 268, 277, 287, 297, 307, 317, 327, 337,
   347, 358, 368, 379, 390, 400]

/-- Value of a C `int` whose 32-bit pattern is `n % 2 ^ 32`
(two's-complement reading of the low 32 bits of `n`). -/
def toSigned32 (n : Nat) : Int :=
  if n % 2 ^ 32 < 2 ^ 31 then ((n % 2 ^ 32 : Nat) : Int)
  else ((n % 2 ^ 32 : Nat) : Int) - 2 ^ 32

/-- C assignment of the `int` difference `a - b` (both operands known
non-negative and below `2 ^ 32`) to a 32-bit `unsigned long`:
two's-complement wraparound modulo `2 ^ 32`. -/
def wrapSub32 (a b : Nat) : Nat :=
  (a % 2 ^ 32 + 2 ^ 32 - b % 2 ^ 32) % 2 ^ 32

/-- The table-branch intermediate
`tmp64 = ch0 * lux_ratio[tmp] * 5930 / 1000` exactly as the C code
evaluates it: the product `ch0 * lux_ratio[tmp] * 5930` is computed in
32-bit `int` arithmetic (wrapping on overflow — only the final
assignment is to the `u64` variable), the division by 1000 truncates
toward zero, and the result is converted to `u64`. -/
def tableTerm64 (ch0 coeff : Nat) : Nat :=
  ((Int.tdiv (toSigned32 (ch0 * coeff * 5930)) 1000).emod (2 ^ 64)).toNat

/-- `als_calculate_lux(u16 ch0, u16 ch1)` of apds9300.c.  `tmp` is the
ratio `ch1 * 100 / ch0` (C `int` arithmetic, no overflow for u16
inputs); each branch's subtraction is an `int` difference stored into a
32-bit `unsigned long`, wrapping when mathematically negative; the
table branch's second operand is `(unsigned long)tmp64`, i.e. `tmp64`
truncated to 32 bits, which `wrapSub32` performs via its `% 2 ^ 32`. -/
def als_calculate_lux (ch0 ch1 : Nat) : Nat :=
  if ch0 = 0 then 0
  else
    let tmp := ch1 * 100 / ch0
    let lux :=
      if tmp ≤ 52 then
        wrapSub32 (3150 * ch0) (tableTerm64 ch0 (lux_ratio.getD tmp 0))
      else if tmp ≤ 65 then wrapSub32 (2290 * ch0) (2910 * ch1)
      else if tmp ≤ 80 then wrapSub32 (1570 * ch0) (1800 * ch1)
      else if tmp ≤ 130 then wrapSub32 (338 * ch0) (260 * ch1)
      else 0
    lux / 100000

/-- The exact mathematical value of the table-branch second term,
`floor(ch0 * coeff * 5930 / 1000)`, with no machine-width truncation. -/
def exactTableTerm (ch0 coeff : Nat) : Nat :=
  ch0 * coeff * 5930 / 1000

/-- Linux errno EAGAIN (operations return `-EAGAIN` when powered off). -/
def EAGAIN : Int := 11

/-- Linux errno EINVAL (threshold guard violations return `-EINVAL`). -/
def EINVAL : Int := 22

/-- The mutable fields of `struct als_data` (all C `int`s).  The i2c
client handle and the mutex are not modelled: bus calls are passed in
as values and each operation is a sequential function. -/
structure AlsData where
  power_state : Int
  thresh_low : Int
  thresh_hi : Int
  intr_en : Int
deriving DecidableEq, Repr

/-- Result of running one driver operation: the C return value, the
session state afterwards, and how many bus transactions were issued. -/
structure OpResult where
  ret : Int
  data : AlsData
  busOps : Nat
deriving DecidableEq, Repr

/-- `als_set_power_state`: writes the CONTROL register (one bus
transaction, outcome `busRet`); on success (`busRet = 0`) records the
new power state, otherwise leaves the session unchanged. -/
def als_set_power_state (d : AlsData) (state : Int) (busRet : Int) : OpResult :=
  if busRet = 0 then ⟨busRet, { d with power_state := state }, 1⟩
  else ⟨busRet, d, 1⟩

/-- `als_get_adc_val`: returns `-EAGAIN` with no bus I/O when powered
off; otherwise issues one word read and passes its result through.
The session state is never modified. -/
def als_get_adc_val (d : AlsData) (adc_number : Int) (busRet : Int) : OpResult :=
  if d.power_state = 0 then ⟨-EAGAIN, d, 0⟩
  else ⟨busRet, d, 1⟩

/-- `als_set_thresh_low`: power gate first (`-EAGAIN`, no bus I/O);
then the guard `value > ALS_THRESH_MAX || value > data->thresh_hi`
(`-EINVAL`, no bus I/O); then one word write, recording the value on
success. -/
def als_set_thresh_low (d : AlsData) (value : Int) (busRet : Int) : OpResult :=
  if d.power_state = 0 then ⟨-EAGAIN, d, 0⟩
  else if value > 65535 ∨ value > d.thresh_hi then ⟨-EINVAL, d, 0⟩
  else if busRet = 0 then ⟨busRet, { d with thresh_low := value }, 1⟩
  else ⟨busRet, d, 1⟩

/-- `als_set_thresh_hi`: power gate first (`-EAGAIN`, no bus I/O);
then the guard `value > ALS_THRESH_MAX || value < data->thresh_low`
(`-EINVAL`, no bus I/O); then one word write, recording the value on
success. -/
def als_set_thresh_hi (d : AlsData) (value : Int) (busRet : Int) : OpResult :=
  if d.power_state = 0 then ⟨-EAGAIN, d, 0⟩
  else if value > 65535 ∨ value < d.thresh_low then ⟨-EINVAL, d, 0⟩
  else if busRet = 0 then ⟨busRet, { d with thresh_hi := value }, 1⟩
  else ⟨busRet, d, 1⟩

/-- `als_set_intr_state`: power gate first (`-EAGAIN`, no bus I/O);
then one byte write to the INTERRUPT register, recording the new state
on success. -/
def als_set_intr_state (d : AlsData) (state : Int) (busRet : Int) : OpResult :=
  if d.power_state = 0 then ⟨-EAGAIN, d, 0⟩
  else if busRet = 0 then ⟨busRet, { d with intr_en := state }, 1⟩
  else ⟨busRet, d, 1⟩

/-- `als_remove` (device detach), the driver-state part: disable
interrupts, and only if that returned 0, power off
(`if (!ret) ret = als_set_power_state(data, 0);`). `intrBusRet` and
`powerBusRet` are the outcomes the bus would give each write. -/
def als_remove (d : AlsData) (intrBusRet powerBusRet : Int) : OpResult :=
  let r1 := als_set_intr_state d 0 intrBusRet
  if r1.ret = 0 then
    let r2 := als_set_power_state r1.data 0 powerBusRet
    ⟨r2.ret, r2.data, r1.busOps + r2.busOps⟩
  else r1

/-- IIO event direction extracted from the event code in
`als_read_thresh` (rising, falling, or anything else). -/
inductive EvDir where
  | rising
  | falling
  | other
deriving DecidableEq, Repr

/-- `als_read_thresh`: switches on the event direction and copies the
cached `thresh_hi` / `thresh_low` into `*val` (returned as `some _`),
returning 0; any other direction returns `-EINVAL` and leaves `*val`
unwritten (`none`).  No power check, no bus I/O (count 0). -/
def als_read_thresh (d : AlsData) (dir : EvDir) : Int × Option Int × Nat :=
  match dir with
  | .rising => (0, some d.thresh_hi, 0)
  | .falling => (0, some d.thresh_low, 0)
  | .other => (-EINVAL, none, 0)

/-- `als_read_interrupt_config`: returns the cached `intr_en` field
directly.  No power check, no bus I/O (count 0). -/
def als_read_interrupt_config (d : AlsData) : Int × Nat :=
  (d.intr_en, 0)

/-- Session state right after a successful `als_chip_init` in
`als_probe`: the iio allocation zero-fills `struct als_data`, init
leaves the chip powered on with interrupts disabled. -/
def initialState : AlsData := ⟨1, 0, 0, 0⟩

/-- Claim C1 (code bug in the source): at ch0 = 65535, ch1 = 32767 the ratio
is 49 and the table branch is taken, but `ch0 * lux_ratio[49] * 5930 =
143013098400` is computed in 32-bit int arithmetic before the u64
assignment, wrapping to 1279177632.  The evaluated term is 1279177 instead
of the exact 143013098, and the function returns 2051 where the exact
formula (the stated behaviour, and the intent of the code's own comment
about `tmp64`) gives 634. -/
theorem c1_table_term_overflow :
    32767 * 100 / 65535 = 49 ∧
    lux_ratio.getD 49 0 = 368 ∧
    tableTerm64 65535 368 = 1279177 ∧
    exactTableTerm 65535 368 = 143013098 ∧
    tableTerm64 65535 368 ≠ exactTableTerm 65535 368 ∧
    als_calculate_lux 65535 32767 = 2051 ∧
    (3150 * 65535 - exactTableTerm 65535 368) / 100000 = 634 := by decide

/-- Claim C2 counterexample: the table has 53 entries, not 52, and for the
concrete input pair (100, 52), whose ratio is exactly 52, index 52 is inside
the table's bounds. -/
theorem c2_counterexample :
    lux_ratio.length = 53 ∧ lux_ratio.length ≠ 52 ∧
    52 * 100 / 100 = 52 ∧ 52 < lux_ratio.length := by decide

/-- Claim C2 amended: the lux ratio table has 53 entries (indices 0 to 52),
so for every input pair with ch0 > 0 and ratio exactly 52 the table branch
reads the in-bounds entry `lux_ratio[52] = 400`. -/
theorem c2_table_covers_ratio_52 (ch0 ch1 : Nat) (h0 : 0 < ch0)
    (hr : ch1 * 100 / ch0 = 52) :
    lux_ratio.length = 53 ∧ lux_ratio.getD 52 0 = 400 ∧
    als_calculate_lux ch0 ch1 =
      wrapSub32 (3150 * ch0) (tableTerm64 ch0 400) / 100000 := by
  refine ⟨by decide, by decide, ?_⟩
  have h0' : ch0 ≠ 0 := Nat.pos_iff_ne_zero.mp h0
  simp [als_calculate_lux, h0', hr, lux_ratio]

/-- Witness for `c2_table_covers_ratio_52` at ch0 = 100, ch1 = 52. -/
theorem c2_table_covers_ratio_52_witness :
    lux_ratio.length = 53 ∧ lux_ratio.getD 52 0 = 400 ∧
    als_calculate_lux 100 52 =
      wrapSub32 (3150 * 100) (tableTerm64 100 400) / 100000 :=
  c2_table_covers_ratio_52 100 52 (by decide) (by decide)

/-- Claim C3 counterexample: `lux_ratio[30]` is not 268, and
`als_calculate_lux 1000 300` is not the value the claim's formula (built
from the coefficient 268) yields. -/
theorem c3_counterexample :
    lux_ratio.getD 30 0 ≠ 268 ∧
    als_calculate_lux 1000 300 ≠
      (3150 * 1000 - 1000 * 268 * 5930 / 1000) / 100000 := by decide

/-- Claim C3 amended: `computeLux(1000, 300)` has ratio 30, takes the table
branch with `lux_ratio[30] = 185`, and returns 20, matching the exact
formula built from 185. -/
theorem c3_scenario_value :
    300 * 100 / 1000 = 30 ∧
    lux_ratio.getD 30 0 = 185 ∧
    als_calculate_lux 1000 300 = 20 ∧
    (3150 * 1000 - 1000 * 185 * 5930 / 1000) / 100000 = 20 := by decide

/-- Claim C4 counterexample: with power on and thresholds (10, 100), the
call `als_set_thresh_low(-1)` is not rejected with `-EINVAL`: it issues a
bus write and stores -1 as the new low threshold. -/
theorem c4_counterexample :
    (als_set_thresh_low ⟨1, 10, 100, 0⟩ (-1) 0).ret ≠ -EINVAL ∧
    als_set_thresh_low ⟨1, 10, 100, 0⟩ (-1) 0 = ⟨0, ⟨1, -1, 100, 0⟩, 1⟩ := by
  decide

/-- Claim C4 amended: with power on, both setters reject v > 65535, the low
setter rejects v > thresh_hi, and the high setter rejects v < thresh_low —
each with `-EINVAL`, no bus I/O and unchanged state; a negative v is
rejected by the high setter whenever thresh_low is non-negative, but the
low setter has no lower range check. -/
theorem c4_threshold_rejection (d : AlsData) (v busRet : Int)
    (hp : d.power_state ≠ 0) :
    (v > 65535 ∨ v > d.thresh_hi →
      als_set_thresh_low d v busRet = ⟨-EINVAL, d, 0⟩) ∧
    (v > 65535 ∨ v < d.thresh_low →
      als_set_thresh_hi d v busRet = ⟨-EINVAL, d, 0⟩) ∧
    (v < 0 → 0 ≤ d.thresh_low →
      als_set_thresh_hi d v busRet = ⟨-EINVAL, d, 0⟩) := by
  refine ⟨fun hv => ?_, fun hv => ?_, fun hv hl => ?_⟩
  · rw [als_set_thresh_low, if_neg hp, if_pos hv]
  · rw [als_set_thresh_hi, if_neg hp, if_pos hv]
  · rw [als_set_thresh_hi, if_neg hp, if_pos (Or.inr (by omega))]

/-- Witness for `c4_threshold_rejection`: the out-of-range value 70000 is
rejected by the low setter in the state (1, 10, 100, 0). -/
theorem c4_threshold_rejection_witness :
    als_set_thresh_low ⟨1, 10, 100, 0⟩ 70000 0 =
      ⟨-EINVAL, ⟨1, 10, 100, 0⟩, 0⟩ :=
  (c4_threshold_rejection ⟨1, 10, 100, 0⟩ 70000 0 (by decide)).1
    (Or.inl (by decide))

/-- Claim C5: every power-gated operation — ADC read, both threshold
setters, interrupt-enable — called with power off returns `-EAGAIN`
immediately, issues zero bus transactions and leaves the session state
unchanged. -/
theorem c5_power_gate (d : AlsData) (v busRet : Int)
    (hp : d.power_state = 0) :
    als_get_adc_val d v busRet = ⟨-EAGAIN, d, 0⟩ ∧
    als_set_thresh_low d v busRet = ⟨-EAGAIN, d, 0⟩ ∧
    als_set_thresh_hi d v busRet = ⟨-EAGAIN, d, 0⟩ ∧
    als_set_intr_state d v busRet = ⟨-EAGAIN, d, 0⟩ := by
  simp [als_get_adc_val, als_set_thresh_low, als_set_thresh_hi,
    als_set_intr_state, hp]

/-- Witness for `c5_power_gate` in the powered-off state (0, 3, 7, 1). -/
theorem c5_power_gate_witness :
    als_get_adc_val ⟨0, 3, 7, 1⟩ 5 0 = ⟨-EAGAIN, ⟨0, 3, 7, 1⟩, 0⟩ :=
  (c5_power_gate ⟨0, 3, 7, 1⟩ 5 0 rfl).1

/-- Claim C6: thresh_low ≤ thresh_hi holds in the initial session state and
is preserved by every operation; a threshold write that would violate it
(low above the stored high, or high below the stored low) leaves the stored
values unchanged and fails with a nonzero error. -/
theorem c6_thresh_invariant (d : AlsData) (v busRet : Int)
    (hinv : d.thresh_low ≤ d.thresh_hi) :
    initialState.thresh_low ≤ initialState.thresh_hi ∧
    (als_set_thresh_low d v busRet).data.thresh_low ≤
      (als_set_thresh_low d v busRet).data.thresh_hi ∧
    (als_set_thresh_hi d v busRet).data.thresh_low ≤
      (als_set_thresh_hi d v busRet).data.thresh_hi ∧
    (als_set_power_state d v busRet).data.thresh_low ≤
      (als_set_power_state d v busRet).data.thresh_hi ∧
    (als_set_intr_state d v busRet).data.thresh_low ≤
      (als_set_intr_state d v busRet).data.thresh_hi ∧
    (als_get_adc_val d v busRet).data.thresh_low ≤
      (als_get_adc_val d v busRet).data.thresh_hi ∧
    (v > d.thresh_hi →
      (als_set_thresh_low d v busRet).data = d ∧
      (als_set_thresh_low d v busRet).ret ≠ 0) ∧
    (v < d.thresh_low →
      (als_set_thresh_hi d v busRet).data = d ∧
      (als_set_thresh_hi d v busRet).ret ≠ 0) := by
  obtain ⟨p, tl, th, ie⟩ := d
  simp only [als_set_thresh_low, als_set_thresh_hi, als_set_power_state,
    als_set_intr_state, als_get_adc_val, initialState, EAGAIN, EINVAL] at *
  refine ⟨by decide, ?_, ?_, ?_, ?_, ?_, ?_, ?_⟩ <;>
    split_ifs <;> simp_all

/-- Witness for `c6_thresh_invariant`: an accepted low-threshold write in
the state (1, 10, 100, 0) keeps the stored low at most the stored high. -/
theorem c6_thresh_invariant_witness :
    (als_set_thresh_low ⟨1, 10, 100, 0⟩ 50 0).data.thresh_low ≤
      (als_set_thresh_low ⟨1, 10, 100, 0⟩ 50 0).data.thresh_hi :=
  (c6_thresh_invariant ⟨1, 10, 100, 0⟩ 50 0 (by decide)).2.1

/-- Claim C7 counterexample: detaching a powered-off session with
interrupts flagged enabled issues zero bus writes and leaves both the
interrupt flag and the power state untouched (returning `-EAGAIN`); and
when powered on, a failed interrupt-disable write (bus error -5) makes
teardown skip the power-off write, leaving the device powered. -/
theorem c7_counterexample :
    als_remove ⟨0, 10, 100, 1⟩ 0 0 = ⟨-EAGAIN, ⟨0, 10, 100, 1⟩, 0⟩ ∧
    als_remove ⟨1, 10, 100, 1⟩ (-5) 0 = ⟨-5, ⟨1, 10, 100, 1⟩, 1⟩ := by decide

/-- Claim C7 amended: teardown disables interrupts first and attempts the
power-off write only if that succeeded; with power on and both writes
succeeding it disables interrupts and powers off (two bus writes); with
power on and a failing interrupt-disable write it stops after that one
write; with power off it returns `-EAGAIN` having issued no bus write and
changed nothing. -/
theorem c7_teardown (d : AlsData) (intrBusRet powerBusRet : Int) :
    (d.power_state ≠ 0 → intrBusRet = 0 → powerBusRet = 0 →
      als_remove d intrBusRet powerBusRet =
        ⟨0, ⟨0, d.thresh_low, d.thresh_hi, 0⟩, 2⟩) ∧
    (d.power_state ≠ 0 → intrBusRet ≠ 0 →
      als_remove d intrBusRet powerBusRet = ⟨intrBusRet, d, 1⟩) ∧
    (d.power_state = 0 →
      als_remove d intrBusRet powerBusRet = ⟨-EAGAIN, d, 0⟩) := by
  obtain ⟨p, tl, th, ie⟩ := d
  refine ⟨fun hp hi hpw => ?_, fun hp hi => ?_, fun hp => ?_⟩ <;>
    simp only [als_remove, als_set_intr_state, als_set_power_state,
      EAGAIN] at * <;>
    split_ifs <;> simp_all

/-- Witness for `c7_teardown`: detaching the powered-on session
(1, 5, 7, 1) with both bus writes succeeding disables interrupts and
powers off with exactly two bus writes. -/
theorem c7_teardown_witness :
    als_remove ⟨1, 5, 7, 1⟩ 0 0 = ⟨0, ⟨0, 5, 7, 0⟩, 2⟩ :=
  (c7_teardown ⟨1, 5, 7, 1⟩ 0 0).1 (by decide) rfl rfl

/-- Claim C8: `als_calculate_lux` is a total function; it returns 0
whenever ch0 = 0, and for ch0 > 0 with ch1 = 0 the ratio is 0, the table
branch applies with `lux_ratio[0] = 0`, and the result is
`3150 * ch0 / 100000`. -/
theorem c8_lux_zero_cases (ch0 ch1 : Nat) (hle : ch0 ≤ 65535)
    (hpos : 0 < ch0) :
    als_calculate_lux 0 ch1 = 0 ∧
    0 * 100 / ch0 = 0 ∧
    lux_ratio.getD 0 0 = 0 ∧
    als_calculate_lux ch0 0 = 3150 * ch0 / 100000 := by
  have h0' : ch0 ≠ 0 := Nat.pos_iff_ne_zero.mp hpos
  have ha : 3150 * ch0 < 2 ^ 32 := by omega
  refine ⟨rfl, by simp, by decide, ?_⟩
  simp only [als_calculate_lux, h0', if_false, lux_ratio, tableTerm64,
    toSigned32, wrapSub32]
  norm_num
  omega

/-- Witness for `c8_lux_zero_cases` at ch0 = 1000, ch1 = 7. -/
theorem c8_lux_zero_cases_witness :
    als_calculate_lux 0 7 = 0 ∧
    0 * 100 / 1000 = 0 ∧
    lux_ratio.getD 0 0 = 0 ∧
    als_calculate_lux 1000 0 = 3150 * 1000 / 100000 :=
  c8_lux_zero_cases 1000 7 (by decide) (by decide)

/-- Claim C9: there are in-range inputs inside the 80 < ratio ≤ 130
branch whose subtraction term mathematically exceeds its minuend; the
unsigned 32-bit intermediate wraps around and the function returns a value
far above the largest lux the exact formula can produce (2064 at
ch0 = 65535), instead of a small or zero one. -/
theorem c9_wraparound :
    ∃ ch0 ch1 : Nat, ch0 ≤ 65535 ∧ ch1 ≤ 65535 ∧
      80 < ch1 * 100 / ch0 ∧ ch1 * 100 / ch0 ≤ 130 ∧
      338 * ch0 < 260 * ch1 ∧
      als_calculate_lux ch0 ch1 =
        (2 ^ 32 + 338 * ch0 - 260 * ch1) / 100000 ∧
      als_calculate_lux ch0 ch1 = 42949 ∧
      3150 * 65535 / 100000 < als_calculate_lux ch0 ch1 :=
  ⟨1000, 1309, by decide⟩

/-- Claim C10: reading a threshold (rising gives the cached high, falling
the cached low) and reading the interrupt-enable flag return the cached
session fields directly, succeed with no power check in every state —
powered off included — and issue zero bus transactions; only an invalid
direction code fails, with `-EINVAL` and the output untouched. -/
theorem c10_cached_getters (d : AlsData) :
    als_read_thresh d .rising = (0, some d.thresh_hi, 0) ∧
    als_read_thresh d .falling = (0, some d.thresh_low, 0) ∧
    als_read_thresh d .other = (-EINVAL, none, 0) ∧
    als_read_interrupt_config d = (d.intr_en, 0) :=
  ⟨rfl, rfl, rfl, rfl⟩

end Apds9300
